import Mathlib

/-!
Verification of the bulk parallel image-generation orchestrator of the
LangGraph-Agentic-Meme-Gen repository.

The development shallowly embeds `src/services/openai_image_service.py`
(class `OpenAIImageService`) and `src/tools/image_tools.py`.  External
effects (the OpenAI backend, the filesystem, the session-directory
allocator) are abstracted into an `Env` record of outcome functions:
each task performs at most one backend call and one file write, so the
environment assigns to every task index the outcome of that task's
backend call and of its file write.  Thread-pool completion order is
nondeterministic; it is modelled by an explicit `order : List Nat`
argument (the order in which `as_completed` yields futures), constrained
in theorems to be a permutation of the submitted task indices.
-/

namespace MemeGen

/-- The per-task result dictionary built by `_worker_generate_image` /
`_worker_edit_image`: keys index, success, output_path, error. -/
structure TaskResult where
  index : Nat
  success : Bool
  output_path : Option String
  error : Option String
deriving Repr, DecidableEq

/-- Outcomes of the external effects consumed by one batch.
`genResult i prompt model` is the outcome of the backend generate call made
by task `i` (ok bytes or the raised error message); `editResult` likewise for
backend edit calls; `writeResult i path` is the outcome of task `i`'s file
write; `openable p` says whether `open(p, "rb")` succeeds; `pathExists p`
models `os.path.exists(p)`; `sessionDirAlloc` is the timestamped directory
`_generate_session_directory` would create for this invocation. -/
structure Env where
  genResult : Nat → String → String → Except String String
  editResult : Nat → String → String → Except String String
  writeResult : Nat → String → Except String Unit
  openable : String → Bool
  pathExists : String → Bool
  sessionDirAlloc : String

/-- Big-endian decimal digits, fuel-based so that it is kernel-reducible.
`digitsBEAux fuel n` computes the digits of `n` provided `n ≤ fuel`. -/
def digitsBEAux : Nat → Nat → List Nat
  | 0, _ => []
  | _ + 1, 0 => []
  | fuel + 1, n + 1 => digitsBEAux fuel ((n + 1) / 10) ++ [(n + 1) % 10]

/-- Big-endian decimal digits of `n` (empty for `0`). -/
def natDigitsBE (n : Nat) : List Nat := digitsBEAux n n

/-- The digit list printed by Python's `f"{n:03d}"`: the decimal digits of
`n` left-padded with zeros to width at least 3.  (For `n = 0` the padding
alone yields `[0,0,0]`, matching `"000"`.) -/
def pad3 (n : Nat) : List Nat :=
  List.replicate (3 - (natDigitsBE n).length) 0 ++ natDigitsBE n

/-- The ASCII character of a decimal digit. -/
def decChar (d : Nat) : Char := Char.ofNat (48 + d)

/-- Filename used by `bulk_generate_images` for task `i`:
`f"image_{i:03d}.png"`. -/
def genFileName (i : Nat) : List Char :=
  "image_".data ++ (pad3 i).map decChar ++ ".png".data

/-- Filename used by `bulk_edit_images` for task `i`:
`f"edited_image_{i:03d}.png"`. -/
def editFileName (i : Nat) : List Char :=
  "edited_image_".data ++ (pad3 i).map decChar ++ ".png".data

/-- `str(session_dir / f"image_{i:03d}.png")`. -/
def genOutputPath (sessionDir : String) (i : Nat) : String :=
  sessionDir ++ "/" ++ String.mk (genFileName i)

/-- `str(session_dir / f"edited_image_{i:03d}.png")`. -/
def editOutputPath (sessionDir : String) (i : Nat) : String :=
  sessionDir ++ "/" ++ String.mk (editFileName i)

/-- Lexicographic (by Unicode code point, i.e. byte order on ASCII) strict
comparison of character lists: the order in which filenames sort. -/
def lexLt : List Char → List Char → Bool
  | _, [] => false
  | [], _ :: _ => true
  | a :: as, b :: bs => if a < b then true else if a = b then lexLt as bs else false

namespace OpenAIImageService

/-- `generate_image` with an `output_path` supplied (the only form the bulk
path uses): one backend generate call, then a file write; any error is
re-raised to the caller as the `Except.error` case. -/
def generate_image (env : Env) (i : Nat) (prompt model outputPath : String) :
    Except String String :=
  match env.genResult i prompt model with
  | .error e => .error e
  | .ok _bytes =>
    match env.writeResult i outputPath with
    | .error e => .error e
    | .ok _ => .ok outputPath

/-- Observable trace of one `edit_image` call: its returned-or-raised
result, how many backend edit requests it issued, the model identifier
those requests carried, and the file handles that are still open when the
call finishes (handles for which the code executed `open` but no
`close`). -/
structure EditTrace where
  result : Except String String
  backendCalls : Nat
  modelUsed : Option String
  openHandlesLeaked : List String
deriving Repr

/-- The list comprehension `[open(path, "rb") for path in image_paths]`:
opens paths left to right; on the first failing `open` the comprehension
raises, returning the paths already opened (their handles stay open) and
the failing path. -/
def openAll (env : Env) : List String → List String × Option String
  | [] => ([], none)
  | p :: ps =>
    if env.openable p then
      let rest := openAll env ps
      (p :: rest.1, rest.2)
    else
      ([], some p)

/-- `edit_image` with an `output_path` supplied.  Faithful to the source:
the opens happen before the `try`, so when an `open` raises, the handles
already opened are never closed (the `finally` only closes the list bound
to `images`, which was never assigned); once all opens succeed, the
`try/finally` guarantees every handle is closed on every exit path. -/
def edit_image (env : Env) (i : Nat) (prompt : String) (imagePaths : List String)
    (model : String) (outputPath : String) : EditTrace :=
  match openAll env imagePaths with
  | (opened, some badPath) =>
    { result := .error ("No such file or directory: " ++ badPath)
      backendCalls := 0
      modelUsed := none
      openHandlesLeaked := opened }
  | (_, none) =>
    match env.editResult i prompt model with
    | .error e =>
      { result := .error e, backendCalls := 1, modelUsed := some model
        openHandlesLeaked := [] }
    | .ok _bytes =>
      match env.writeResult i outputPath with
      | .error e =>
        { result := .error e, backendCalls := 1, modelUsed := some model
          openHandlesLeaked := [] }
      | .ok _ =>
        { result := .ok outputPath, backendCalls := 1, modelUsed := some model
          openHandlesLeaked := [] }

/-- `_worker_generate_image`: runs `generate_image` on the task tuple and
converts any raised exception into a failed result dictionary; it is a
total function, so no exception crosses the worker boundary. -/
def _worker_generate_image (env : Env) (prompt model : String) (i : Nat)
    (outputPath : String) : TaskResult :=
  match generate_image env i prompt model outputPath with
  | .ok _ => ⟨i, true, some outputPath, none⟩
  | .error e => ⟨i, false, none, some e⟩

/-- The exact `edit_image` call made by `_worker_edit_image`.  The source
calls `self.edit_image(prompt=prompt, image_paths=image_paths,
output_path=output_path)` WITHOUT a `model` argument, so the call always
uses the default model `"gpt-image-1"`. -/
def _worker_edit_trace (env : Env) (i : Nat) (prompt : String)
    (imagePaths : List String) (outputPath : String) : EditTrace :=
  edit_image env i prompt imagePaths "gpt-image-1" outputPath

/-- `_worker_edit_image`: total, converts any exception into a failed
result dictionary. -/
def _worker_edit_image (env : Env) (prompt : String) (imagePaths : List String)
    (i : Nat) (outputPath : String) : TaskResult :=
  match (_worker_edit_trace env i prompt imagePaths outputPath).result with
  | .ok _ => ⟨i, true, some outputPath, none⟩
  | .error e => ⟨i, false, none, some e⟩

/-- The comparison used by `results.sort(key=lambda x: x["index"])`. -/
def leIdx (a b : TaskResult) : Prop := a.index ≤ b.index

instance : DecidableRel leIdx := fun a b => Nat.decLe a.index b.index

instance : IsTotal TaskResult leIdx := ⟨fun a b => Nat.le_total a.index b.index⟩

instance : IsTrans TaskResult leIdx := ⟨fun _ _ _ hab hbc => Nat.le_trans hab hbc⟩

/-- The task tuples `(prompt, model, i, output_path)` built by
`bulk_generate_images` before dispatch. -/
def genTasks (prompts : List String) (model sessionDir : String) :
    List (String × String × Nat × String) :=
  (List.range prompts.length).map fun i =>
    (prompts.getD i "", model, i, genOutputPath sessionDir i)

/-- `bulk_generate_images`: resolves the session directory, builds one task
per prompt, runs the workers (collecting results in the nondeterministic
completion order `order`), then sorts by index.  Returns one dictionary per
completed future. -/
def bulk_generate_images (env : Env) (prompts : List String) (model : String)
    (outputDir : Option String) (order : List Nat) : List TaskResult :=
  let sessionDir := outputDir.getD env.sessionDirAlloc
  let resOf := fun i =>
    _worker_generate_image env (prompts.getD i "") model i (genOutputPath sessionDir i)
  List.insertionSort leIdx (order.map resOf)

/-- The task tuples `(prompt, image_paths, i, output_path)` built by
`bulk_edit_images` before dispatch. -/
def editTasks (prompts : List String) (imagePathsList : List (List String))
    (sessionDir : String) : List (String × List String × Nat × String) :=
  (List.range prompts.length).map fun i =>
    (prompts.getD i "", imagePathsList.getD i [], i, editOutputPath sessionDir i)

/-- `bulk_edit_images`: first the length precondition (raising `ValueError`
before any directory is created or task is built), then dispatch, collect
and sort as for generation.  The second component counts the backend edit
requests issued across the whole call (zero in the error branch, and the
sum of each worker's backend calls otherwise). -/
def bulk_edit_images (env : Env) (prompts : List String)
    (imagePathsList : List (List String)) (model : String)
    (outputDir : Option String) (order : List Nat) :
    Except String (List TaskResult) × Nat :=
  if prompts.length ≠ imagePathsList.length then
    (.error "Number of prompts must match number of image path lists", 0)
  else
    let sessionDir := outputDir.getD env.sessionDirAlloc
    let resOf := fun i =>
      _worker_edit_image env (prompts.getD i "") (imagePathsList.getD i []) i
        (editOutputPath sessionDir i)
    let calls :=
      ((List.range prompts.length).map fun i =>
        (_worker_edit_trace env i (prompts.getD i "") (imagePathsList.getD i [])
          (editOutputPath sessionDir i)).backendCalls).sum
    (.ok (List.insertionSort leIdx (order.map resOf)), calls)

end OpenAIImageService

namespace ImageTools

/-- The dictionary returned by the tool-layer bulk entry points. -/
structure Manifest where
  success : Bool
  results : List TaskResult
  output_paths : List (Option String)
  session_dir : Option String
  message : String
deriving Repr, DecidableEq

/-- Python `str` applied to an optional value (`str(None) = "None"`). -/
def optStr : Option String → String
  | some s => s
  | none => "None"

/-- The characters strictly before the last `/`, if any `/` occurs. -/
def lastSlashSplit : List Char → Option (List Char)
  | [] => none
  | c :: cs =>
    match lastSlashSplit cs with
    | some p => some (c :: p)
    | none => if c = '/' then some [] else none

/-- Python `s.rsplit("/", 1)[0]`: everything before the last slash, or the
whole string when it contains no slash. -/
def rsplitHead (s : String) : String :=
  match lastSlashSplit s.data with
  | some p => String.mk p
  | none => s

/-- The `session_dir` field of the returned manifest: the supplied output
directory if any; otherwise, `str(results[0]["output_path"]).rsplit("/", 1)[0]`
if the batch is nonempty and its FIRST result succeeded, and `None`
otherwise. -/
def sessionDirField (outputDir : Option String) (results : List TaskResult) :
    Option String :=
  match outputDir with
  | some d => some d
  | none =>
    match results with
    | [] => none
    | r :: _ => if r.success then some (rsplitHead (optStr r.output_path)) else none

/-- Manifest assembly shared by the two tool-layer bulk entry points. -/
def buildManifest (verb : String) (outputDir : Option String) (numPrompts : Nat)
    (results : List TaskResult) : Manifest :=
  let successfulPaths := (results.filter fun r => r.success).map fun r => r.output_path
  { success := results.all fun r => r.success
    results := results
    output_paths := successfulPaths
    session_dir := sessionDirField outputDir results
    message := verb ++ toString successfulPaths.length ++ " images out of " ++
      toString numPrompts ++ " requested" }

/-- Tool-layer `bulk_generate_images`. -/
def bulk_generate_images (env : Env) (prompts : List String) (model : String)
    (outputDir : Option String) (order : List Nat) : Manifest :=
  buildManifest "Generated " outputDir prompts.length
    (OpenAIImageService.bulk_generate_images env prompts model outputDir order)

/-- The tool-layer pre-check loop of `bulk_edit_images`: the first
`(prompt index, path)` whose path fails `os.path.exists`, scanning lists in
order and each list left to right. -/
def missingSource (env : Env) : List (List String) → Nat → Option (Nat × String)
  | [], _ => none
  | paths :: rest, i =>
    match paths.find? (fun p => !env.pathExists p) with
    | some p => some (i, p)
    | none => missingSource env rest (i + 1)

/-- Tool-layer `bulk_edit_images`: existence pre-check, then the service
call (whose `ValueError` propagates out of the tool as the error case),
then manifest assembly. -/
def bulk_edit_images (env : Env) (prompts : List String)
    (imagePathsList : List (List String)) (model : String)
    (outputDir : Option String) (order : List Nat) : Except String Manifest :=
  match missingSource env imagePathsList 0 with
  | some ip =>
    .error ("Source image not found at prompt index " ++ toString ip.1 ++ ": " ++ ip.2)
  | none =>
    match OpenAIImageService.bulk_edit_images env prompts imagePathsList model
        outputDir order with
    | (.error e, _) => .error e
    | (.ok results, _) => .ok (buildManifest "Edited " outputDir prompts.length results)

end ImageTools

/-- A concrete environment for evaluating the definitions: every backend
call succeeds, every write succeeds, every path except `"missing.png"`
exists and opens. -/
def testEnv : Env :=
  { genResult := fun _ _ _ => .ok "bytes"
    editResult := fun _ _ _ => .ok "bytes"
    writeResult := fun _ _ => .ok ()
    openable := fun p => !(p == "missing.png")
    pathExists := fun p => !(p == "missing.png")
    sessionDirAlloc := "generated_images/session_20260101_000000" }

/-- Like `testEnv` but the backend generate call of task 0 fails with
`"rate limited"` while all other tasks succeed. -/
def failFirstEnv : Env :=
  { testEnv with
    genResult := fun i _ _ => if i = 0 then .error "rate limited" else .ok "bytes" }

/-!
Model of the bounded thread pool (`concurrent.futures.ThreadPoolExecutor`
with `max_workers = self.max_workers`): tasks wait in `pending`, at most
`cap` of them are simultaneously in the dispatched-but-not-completed
state (`inflight`), and completed tasks move to `completed`.
-/

/-- A pool scheduling state: submitted-but-queued, in-flight, and
completed task indices. -/
structure PoolState where
  pending : List Nat
  inflight : List Nat
  completed : List Nat

/-- One scheduling step of a pool with `cap` workers: a queued task may
start only while fewer than `cap` tasks are in flight; any in-flight task
may complete. -/
inductive PoolStep (cap : Nat) : PoolState → PoolState → Prop
  | dispatch (t : Nat) (pending inflight completed : List Nat)
      (h : inflight.length < cap) :
      PoolStep cap ⟨t :: pending, inflight, completed⟩ ⟨pending, t :: inflight, completed⟩
  | complete (t : Nat) (pending inflight1 inflight2 completed : List Nat) :
      PoolStep cap ⟨pending, inflight1 ++ t :: inflight2, completed⟩
        ⟨pending, inflight1 ++ inflight2, t :: completed⟩

/-- States reachable by the pool scheduler. -/
def poolReachable (cap : Nat) : PoolState → PoolState → Prop :=
  Relation.ReflTransGen (PoolStep cap)

/-- `self.max_workers = min(max_workers, 10)` from `__init__`: the pool
size used for every bulk batch. -/
def max_workers (requested : Nat) : Nat := min requested 10

/-!
## Helper lemmas
-/

open OpenAIImageService ImageTools

theorem digitsBEAux_eq : ∀ (fuel n : Nat), n ≤ fuel →
    digitsBEAux fuel n = (Nat.digits 10 n).reverse := by
  intro fuel
  induction fuel with
  | zero =>
    intro n hn
    have : n = 0 := Nat.le_zero.mp hn
    subst this
    simp [digitsBEAux]
  | succ fuel ih =>
    intro n hn
    match n with
    | 0 => simp [digitsBEAux]
    | m + 1 =>
      have hdiv : (m + 1) / 10 ≤ fuel := by
        have h1 : (m + 1) / 10 < m + 1 := Nat.div_lt_self (Nat.succ_pos m) (by norm_num)
        omega
      rw [show digitsBEAux (fuel + 1) (m + 1) =
        digitsBEAux fuel ((m + 1) / 10) ++ [(m + 1) % 10] from rfl]
      rw [ih _ hdiv]
      rw [Nat.digits_def' (by norm_num : (1:Nat) < 10) (Nat.succ_pos m)]
      simp

theorem natDigitsBE_eq (n : Nat) : natDigitsBE n = (Nat.digits 10 n).reverse :=
  digitsBEAux_eq n n le_rfl

theorem ofDigits_replicate_zero (b k : Nat) :
    Nat.ofDigits b (List.replicate k 0) = 0 := by
  induction k with
  | zero => simp
  | succ k ih => simp [List.replicate_succ, Nat.ofDigits_cons, ih]

theorem ofDigits_rev_pad3 (n : Nat) : Nat.ofDigits 10 (pad3 n).reverse = n := by
  rw [pad3, natDigitsBE_eq, List.reverse_append, List.reverse_reverse,
    List.reverse_replicate, Nat.ofDigits_append, Nat.ofDigits_digits,
    ofDigits_replicate_zero]
  simp

theorem pad3_inj {m n : Nat} (h : pad3 m = pad3 n) : m = n := by
  have := congrArg (fun l => Nat.ofDigits 10 l.reverse) h
  simpa [ofDigits_rev_pad3] using this

theorem pad3_lt10 (n : Nat) : ∀ d ∈ pad3 n, d < 10 := by
  intro d hd
  rw [pad3, List.mem_append] at hd
  rcases hd with hd | hd
  · have := List.eq_of_mem_replicate hd
    omega
  · rw [natDigitsBE_eq, List.mem_reverse] at hd
    exact Nat.digits_lt_base (by norm_num) hd

theorem digits_len_le_three {n : Nat} (h : n < 1000) :
    (Nat.digits 10 n).length ≤ 3 := by
  by_cases h0 : n = 0
  · subst h0; simp
  by_contra hlen
  push_neg at hlen
  have h1 : 10 ^ (Nat.digits 10 n).length ≤ 10 * n :=
    Nat.base_pow_length_digits_le 10 n (by norm_num) h0
  have h2 : (10:Nat) ^ 4 ≤ 10 ^ (Nat.digits 10 n).length :=
    Nat.pow_le_pow_right (by norm_num) hlen
  omega

theorem pad3_length {n : Nat} (h : n < 1000) : (pad3 n).length = 3 := by
  have h1 : (natDigitsBE n).length ≤ 3 := by
    rw [natDigitsBE_eq, List.length_reverse]
    exact digits_len_le_three h
  rw [pad3, List.length_append, List.length_replicate]
  omega

theorem decChar_lt {d e : Nat} (hd : d < 10) (he : e < 10) :
    decChar d < decChar e ↔ d < e := by
  interval_cases d <;> interval_cases e <;> simp [decChar]

theorem decChar_eq {d e : Nat} (hd : d < 10) (he : e < 10) :
    decChar d = decChar e ↔ d = e := by
  interval_cases d <;> interval_cases e <;> simp [decChar]

theorem lexLt_append_same : ∀ (p x y : List Char), lexLt (p ++ x) (p ++ y) = lexLt x y := by
  intro p
  induction p with
  | nil => intro x y; rfl
  | cons c cs ih =>
    intro x y
    simp [lexLt, lt_irrefl, ih]

theorem lex3 {a b c A B C : Nat} (s t : List Char)
    (ha : a < 10) (hb : b < 10) (hc : c < 10) (hA : A < 10) (hB : B < 10) (hC : C < 10)
    (hval : 100 * a + 10 * b + c < 100 * A + 10 * B + C) :
    lexLt (decChar a :: decChar b :: decChar c :: s)
      (decChar A :: decChar B :: decChar C :: t) = true := by
  by_cases h1 : a < A
  · simp [lexLt, (decChar_lt ha hA).mpr h1]
  · have haA : a = A := by omega
    subst haA
    by_cases h2 : b < B
    · simp [lexLt, lt_irrefl, (decChar_lt hb hB).mpr h2]
    · have hbB : b = B := by omega
      subst hbB
      have h3 : c < C := by omega
      simp [lexLt, lt_irrefl, (decChar_lt hc hC).mpr h3]

theorem map_decChar_inj : ∀ {xs ys : List Nat}, (∀ d ∈ xs, d < 10) → (∀ d ∈ ys, d < 10) →
    xs.map decChar = ys.map decChar → xs = ys := by
  intro xs
  induction xs with
  | nil => intro ys _ _ h; cases ys <;> simp_all
  | cons x xs ih =>
    intro ys hxs hys h
    cases ys with
    | nil => simp_all
    | cons y ys =>
      simp only [List.map_cons, List.cons.injEq] at h
      have hx : x < 10 := hxs x (by simp)
      have hy : y < 10 := hys y (by simp)
      have hxy : x = y := (decChar_eq hx hy).mp h.1
      have := ih (fun d hd => hxs d (by simp [hd])) (fun d hd => hys d (by simp [hd])) h.2
      simp [hxy, this]

theorem pad3_val {n a b c : Nat} (h : pad3 n = [a, b, c]) : 100 * a + 10 * b + c = n := by
  have h1 := ofDigits_rev_pad3 n
  rw [h] at h1
  simp [Nat.ofDigits] at h1
  omega

theorem padName_lt (pre : List Char) {i j : Nat} (hi : i < 1000) (hj : j < 1000)
    (hij : i < j) :
    lexLt (pre ++ ((pad3 i).map decChar ++ ".png".data))
      (pre ++ ((pad3 j).map decChar ++ ".png".data)) = true := by
  obtain ⟨a, b, c, habc⟩ := List.length_eq_three.mp (pad3_length hi)
  obtain ⟨A, B, C, hABC⟩ := List.length_eq_three.mp (pad3_length hj)
  have hvi := pad3_val habc
  have hvj := pad3_val hABC
  have hlti := pad3_lt10 i
  have hltj := pad3_lt10 j
  rw [habc] at hlti
  rw [hABC] at hltj
  rw [habc, hABC, lexLt_append_same]
  simp only [List.map_cons, List.map_nil, List.nil_append, List.cons_append]
  exact lex3 _ _ (hlti a (by simp)) (hlti b (by simp)) (hlti c (by simp))
    (hltj A (by simp)) (hltj B (by simp)) (hltj C (by simp)) (by omega)

theorem padName_inj (pre : List Char) {i j : Nat}
    (h : pre ++ ((pad3 i).map decChar ++ ".png".data) =
      pre ++ ((pad3 j).map decChar ++ ".png".data)) : i = j := by
  have h1 : (pad3 i).map decChar ++ ".png".data = (pad3 j).map decChar ++ ".png".data :=
    List.append_cancel_left h
  have hlen : ((pad3 i).map decChar).length = ((pad3 j).map decChar).length := by
    have := congrArg List.length h1
    simp only [List.length_append] at this
    omega
  have h2 := (List.append_inj h1 hlen).1
  exact pad3_inj (map_decChar_inj (pad3_lt10 i) (pad3_lt10 j) h2)

theorem genFileName_lt {i j : Nat} (hi : i < 1000) (hj : j < 1000) (hij : i < j) :
    lexLt (genFileName i) (genFileName j) = true := by
  rw [genFileName, genFileName, List.append_assoc, List.append_assoc]
  exact padName_lt _ hi hj hij

theorem genFileName_inj {i j : Nat} (h : genFileName i = genFileName j) : i = j := by
  rw [genFileName, genFileName, List.append_assoc, List.append_assoc] at h
  exact padName_inj _ h

theorem editFileName_lt {i j : Nat} (hi : i < 1000) (hj : j < 1000) (hij : i < j) :
    lexLt (editFileName i) (editFileName j) = true := by
  rw [editFileName, editFileName, List.append_assoc, List.append_assoc]
  exact padName_lt _ hi hj hij

theorem editFileName_inj {i j : Nat} (h : editFileName i = editFileName j) : i = j := by
  rw [editFileName, editFileName, List.append_assoc, List.append_assoc] at h
  exact padName_inj _ h

theorem worker_gen_index (env : Env) (p m : String) (i : Nat) (o : String) :
    (_worker_generate_image env p m i o).index = i := by
  unfold _worker_generate_image
  cases generate_image env i p m o <;> rfl

theorem worker_edit_index (env : Env) (p : String) (paths : List String) (i : Nat)
    (o : String) :
    (_worker_edit_image env p paths i o).index = i := by
  unfold _worker_edit_image
  cases (_worker_edit_trace env i p paths o).result <;> rfl

theorem worker_gen_cases (env : Env) (p m : String) (i : Nat) (o : String) :
    _worker_generate_image env p m i o = ⟨i, true, some o, none⟩ ∨
      ∃ e, generate_image env i p m o = .error e ∧
        _worker_generate_image env p m i o = ⟨i, false, none, some e⟩ := by
  unfold _worker_generate_image
  cases h : generate_image env i p m o with
  | error e => right; exact ⟨e, rfl, rfl⟩
  | ok v => left; rfl

theorem worker_edit_cases (env : Env) (p : String) (paths : List String) (i : Nat)
    (o : String) :
    _worker_edit_image env p paths i o = ⟨i, true, some o, none⟩ ∨
      ∃ e, (_worker_edit_trace env i p paths o).result = .error e ∧
        _worker_edit_image env p paths i o = ⟨i, false, none, some e⟩ := by
  unfold _worker_edit_image
  cases h : (_worker_edit_trace env i p paths o).result with
  | error e => right; exact ⟨e, rfl, rfl⟩
  | ok v => left; rfl

/-- Sorting the results collected in any completion order that is a
permutation of the submitted indices restores the canonical
one-result-per-task list in submission order. -/
theorem collect_eq (resOf : Nat → TaskResult) (hidx : ∀ i, (resOf i).index = i) (N : Nat)
    (order : List Nat) (h : order.Perm (List.range N)) :
    List.insertionSort leIdx (order.map resOf) = (List.range N).map resOf := by
  have hperm : (List.insertionSort leIdx (order.map resOf)).Perm
      ((List.range N).map resOf) :=
    (List.perm_insertionSort leIdx (order.map resOf)).trans (h.map resOf)
  have h1 : (order.map resOf).map TaskResult.index = order := by
    rw [List.map_map]
    have : (fun i => (resOf i).index) = fun i => i := funext hidx
    simp only [Function.comp_def, this]
    exact List.map_id _
  have hstep : ((List.insertionSort leIdx (order.map resOf)).map TaskResult.index).Perm
      order := by
    have := (List.perm_insertionSort leIdx (order.map resOf)).map TaskResult.index
    rwa [h1] at this
  have hsorted2 : List.Sorted (· ≤ ·)
      ((List.insertionSort leIdx (order.map resOf)).map TaskResult.index) := by
    have hs := List.sorted_insertionSort leIdx (order.map resOf)
    exact List.pairwise_map.mpr hs
  have hmapidx : (List.insertionSort leIdx (order.map resOf)).map TaskResult.index =
      List.range N :=
    List.eq_of_perm_of_sorted (hstep.trans h) hsorted2 (List.sorted_le_range N)
  have hlen : (List.insertionSort leIdx (order.map resOf)).length = N := by
    have := congrArg List.length hmapidx
    simpa using this
  apply List.ext_get (by simpa using hlen)
  intro n hn1 hn2
  have hnN : n < N := by rwa [hlen] at hn1
  have hmem : (List.insertionSort leIdx (order.map resOf)).get ⟨n, hn1⟩ ∈
      (List.range N).map resOf :=
    hperm.mem_iff.mp (List.get_mem _ _ _)
  obtain ⟨i, hiN, hival⟩ := List.mem_map.mp hmem
  have hidxn : ((List.insertionSort leIdx (order.map resOf)).get ⟨n, hn1⟩).index = n := by
    have h2 := congrArg (fun l => l.getD n 0) hmapidx
    simp only [List.getD_eq_getElem?_getD] at h2
    rw [List.getElem?_map] at h2
    rw [List.getElem?_eq_getElem hn1] at h2
    rw [List.getElem?_range hnN] at h2
    simpa [List.get_eq_getElem] using h2
  have hin : i = n := by
    rw [← hival, hidx i] at hidxn
    exact hidxn
  subst hin
  rw [← hival]
  simp [List.get_eq_getElem]

theorem map_index_canonical (resOf : Nat → TaskResult) (hidx : ∀ i, (resOf i).index = i)
    (N : Nat) : ((List.range N).map resOf).map TaskResult.index = List.range N := by
  rw [List.map_map]
  have : (fun i => (resOf i).index) = fun i => i := funext hidx
  simp only [Function.comp_def, this]
  exact List.map_id _

theorem bulk_gen_eq (env : Env) (prompts : List String) (model : String)
    (outputDir : Option String) (order : List Nat) :
    OpenAIImageService.bulk_generate_images env prompts model outputDir order =
      List.insertionSort leIdx (order.map fun i =>
        _worker_generate_image env (prompts.getD i "") model i
          (genOutputPath (outputDir.getD env.sessionDirAlloc) i)) := rfl

theorem bulk_edit_eq (env : Env) (prompts : List String) (ipl : List (List String))
    (model : String) (outputDir : Option String) (order : List Nat)
    (hlen : prompts.length = ipl.length) :
    OpenAIImageService.bulk_edit_images env prompts ipl model outputDir order =
      (.ok (List.insertionSort leIdx (order.map fun i =>
          _worker_edit_image env (prompts.getD i "") (ipl.getD i []) i
            (editOutputPath (outputDir.getD env.sessionDirAlloc) i))),
        ((List.range prompts.length).map fun i =>
          (_worker_edit_trace env i (prompts.getD i "") (ipl.getD i [])
            (editOutputPath (outputDir.getD env.sessionDirAlloc) i)).backendCalls).sum) := by
  unfold OpenAIImageService.bulk_edit_images
  rw [if_neg (by omega)]

theorem bulk_gen_canonical (env : Env) (prompts : List String) (model : String)
    (outputDir : Option String) (order : List Nat)
    (hord : order.Perm (List.range prompts.length)) :
    OpenAIImageService.bulk_generate_images env prompts model outputDir order =
      (List.range prompts.length).map fun i =>
        _worker_generate_image env (prompts.getD i "") model i
          (genOutputPath (outputDir.getD env.sessionDirAlloc) i) := by
  rw [bulk_gen_eq]
  exact collect_eq _ (fun i => worker_gen_index env (prompts.getD i "") model i _) _ _ hord

theorem bulk_edit_canonical (env : Env) (prompts : List String) (ipl : List (List String))
    (model : String) (outputDir : Option String) (order : List Nat)
    (hord : order.Perm (List.range prompts.length))
    (hlen : prompts.length = ipl.length) :
    (OpenAIImageService.bulk_edit_images env prompts ipl model outputDir order).1 =
      .ok ((List.range prompts.length).map fun i =>
        _worker_edit_image env (prompts.getD i "") (ipl.getD i []) i
          (editOutputPath (outputDir.getD env.sessionDirAlloc) i)) := by
  rw [bulk_edit_eq env prompts ipl model outputDir order hlen]
  rw [collect_eq _ (fun i => worker_edit_index env (prompts.getD i "") (ipl.getD i []) i _)
    _ _ hord]

theorem canonical_pairwise (resOf : Nat → TaskResult) (hidx : ∀ i, (resOf i).index = i)
    (N : Nat) (p : TaskResult → Bool) :
    (((List.range N).map resOf).filter p).Pairwise (fun a b => a.index < b.index) := by
  apply List.Pairwise.sublist (List.filter_sublist _)
  rw [List.pairwise_map]
  have := List.pairwise_lt_range N
  exact this.imp (fun {a b} hab => by rw [hidx, hidx]; exact hab)

theorem pool_invariant (cap : Nat) (tasks : List Nat) (s : PoolState)
    (h : poolReachable cap ⟨tasks, [], []⟩ s) : s.inflight.length ≤ cap := by
  induction h with
  | refl => simp
  | tail hreach hstep ih =>
    cases hstep with
    | dispatch t pending inflight completed hlt =>
      simpa using hlt
    | complete t pending inflight1 inflight2 completed =>
      simp only [List.length_append, List.length_cons] at ih ⊢
      omega

/-!
## Claim theorems
-/

/-- C1: for every batch of N prompts submitted to `bulk_generate_images` or
`bulk_edit_images`, whatever the completion order (any permutation of the
submitted indices), the returned result list has length exactly N, and its
index fields, read in list order, are exactly `0, 1, ..., N-1` — i.e. the
index set is `{0,...,N-1}` and the list is sorted ascending by index. -/
theorem c1_bulk_results_complete_and_ordered (env : Env) (prompts : List String)
    (ipl : List (List String)) (model : String) (outputDir : Option String)
    (order : List Nat) (hord : order.Perm (List.range prompts.length))
    (hlen : prompts.length = ipl.length) :
    ((OpenAIImageService.bulk_generate_images env prompts model outputDir order).length =
        prompts.length
      ∧ (OpenAIImageService.bulk_generate_images env prompts model outputDir order).map
          TaskResult.index = List.range prompts.length)
    ∧ ∃ rs, (OpenAIImageService.bulk_edit_images env prompts ipl model outputDir order).1 =
          .ok rs
        ∧ rs.length = prompts.length
        ∧ rs.map TaskResult.index = List.range prompts.length := by
  refine ⟨⟨?_, ?_⟩, ?_⟩
  · rw [bulk_gen_canonical env prompts model outputDir order hord]
    simp
  · rw [bulk_gen_canonical env prompts model outputDir order hord]
    exact map_index_canonical _ (fun i => worker_gen_index env (prompts.getD i "") model i _) _
  · refine ⟨_, bulk_edit_canonical env prompts ipl model outputDir order hord hlen,
      by simp, ?_⟩
    exact map_index_canonical _
      (fun i => worker_edit_index env (prompts.getD i "") (ipl.getD i []) i _) _

theorem c1_witness :
    (OpenAIImageService.bulk_generate_images testEnv ["a", "b"] "m" none [1, 0]).map
      TaskResult.index = List.range 2 :=
  (c1_bulk_results_complete_and_ordered testEnv ["a", "b"] [["x.png"], ["y.png"]] "m" none
    [1, 0] (by decide) rfl).1.2

/-- C2: for every batch, the manifest's `output_paths` is exactly the list
of `output_path` values of the results whose `success` is true, taken in
ascending index order (the successful results appear with strictly
increasing indices), and so contains no entry for any failed result. -/
theorem c2_output_paths_successes_in_order (env : Env) (prompts : List String)
    (ipl : List (List String)) (model : String) (outputDir : Option String)
    (order : List Nat) (hord : order.Perm (List.range prompts.length))
    (hlen : prompts.length = ipl.length) :
    ((ImageTools.bulk_generate_images env prompts model outputDir order).output_paths =
        ((ImageTools.bulk_generate_images env prompts model outputDir order).results.filter
          fun r => r.success).map (fun r => r.output_path)
      ∧ ((ImageTools.bulk_generate_images env prompts model outputDir order).results.filter
          fun r => r.success).Pairwise (fun a b => a.index < b.index))
    ∧ ∀ m, ImageTools.bulk_edit_images env prompts ipl model outputDir order = .ok m →
        m.output_paths = (m.results.filter fun r => r.success).map (fun r => r.output_path)
          ∧ (m.results.filter fun r => r.success).Pairwise (fun a b => a.index < b.index) := by
  constructor
  · constructor
    · rfl
    · show ((OpenAIImageService.bulk_generate_images env prompts model outputDir
          order).filter fun r => r.success).Pairwise (fun a b => a.index < b.index)
      rw [bulk_gen_canonical env prompts model outputDir order hord]
      exact canonical_pairwise _
        (fun i => worker_gen_index env (prompts.getD i "") model i _) _ _
  · intro m hm
    unfold ImageTools.bulk_edit_images at hm
    rcases hms : missingSource env ipl 0 with _ | ip
    · rw [hms] at hm
      rcases hsvc : OpenAIImageService.bulk_edit_images env prompts ipl model outputDir order
        with ⟨res, calls⟩
      rw [hsvc] at hm
      have hfst := bulk_edit_canonical env prompts ipl model outputDir order hord hlen
      rw [hsvc] at hfst
      simp only at hfst
      subst hfst
      simp only [Except.ok.injEq] at hm
      subst hm
      constructor
      · rfl
      · show ((((List.range prompts.length).map fun i =>
            _worker_edit_image env (prompts.getD i "") (ipl.getD i []) i
              (editOutputPath (outputDir.getD env.sessionDirAlloc) i)).filter
            fun r => r.success)).Pairwise (fun a b => a.index < b.index)
        exact canonical_pairwise _
          (fun i => worker_edit_index env (prompts.getD i "") (ipl.getD i []) i _) _ _
    · rw [hms] at hm
      exact absurd hm (by simp)

theorem c2_witness :
    ((ImageTools.bulk_generate_images testEnv ["a", "b"] "m" none [1, 0]).results.filter
      fun r => r.success).Pairwise (fun a b => a.index < b.index) :=
  (c2_output_paths_successes_in_order testEnv ["a", "b"] [["x.png"], ["y.png"]] "m" none
    [1, 0] (by decide) rfl).1.2

/-- C3: the result list is exactly one worker result per submitted task
(each task's result depends only on that task's own outcome — fault
isolation, and the bulk entry point is a total function, so no per-task
failure surfaces as a batch-level exception); any error raised inside a
task's work is converted by the worker into a failed `TaskResult` carrying
that task's index and the error string; and the manifest's `success`
(allSucceeded) flag is true iff every result has `success = true`. -/
theorem c3_fault_isolation_and_allSucceeded (env : Env) (prompts : List String)
    (model : String) (outputDir : Option String) (order : List Nat)
    (hord : order.Perm (List.range prompts.length)) :
    (OpenAIImageService.bulk_generate_images env prompts model outputDir order =
      (List.range prompts.length).map fun i =>
        _worker_generate_image env (prompts.getD i "") model i
          (genOutputPath (outputDir.getD env.sessionDirAlloc) i))
    ∧ (∀ (i : Nat) (prompt outputPath e : String),
        generate_image env i prompt model outputPath = .error e →
        _worker_generate_image env prompt model i outputPath = ⟨i, false, none, some e⟩)
    ∧ (∀ (i : Nat) (prompt : String) (imagePaths : List String) (outputPath e : String),
        (_worker_edit_trace env i prompt imagePaths outputPath).result = .error e →
        _worker_edit_image env prompt imagePaths i outputPath = ⟨i, false, none, some e⟩)
    ∧ ((ImageTools.bulk_generate_images env prompts model outputDir order).success = true ↔
        ∀ r ∈ OpenAIImageService.bulk_generate_images env prompts model outputDir order,
          r.success = true) := by
  refine ⟨bulk_gen_canonical env prompts model outputDir order hord, ?_, ?_, ?_⟩
  · intro i prompt outputPath e h
    unfold _worker_generate_image
    rw [h]
  · intro i prompt imagePaths outputPath e h
    unfold _worker_edit_image
    rw [h]
  · show (OpenAIImageService.bulk_generate_images env prompts model outputDir order).all
        (fun r => r.success) = true ↔ _
    exact List.all_eq_true

theorem c3_witness :
    (ImageTools.bulk_generate_images failFirstEnv ["a", "b"] "m" none [0, 1]).success =
        true ↔
      ∀ r ∈ OpenAIImageService.bulk_generate_images failFirstEnv ["a", "b"] "m" none [0, 1],
        r.success = true :=
  (c3_fault_isolation_and_allSucceeded failFirstEnv ["a", "b"] "m" none [0, 1]
    (by decide)).2.2.2

/-- C4: whenever the number of prompts differs from the number of
source-image-path lists, `bulk_edit_images` raises the `ValueError`
precondition message before building or dispatching any task, and the
number of backend edit invocations made by the call is zero. -/
theorem c4_length_mismatch_rejected_before_dispatch (env : Env) (prompts : List String)
    (ipl : List (List String)) (model : String) (outputDir : Option String)
    (order : List Nat) (h : prompts.length ≠ ipl.length) :
    OpenAIImageService.bulk_edit_images env prompts ipl model outputDir order =
      (.error "Number of prompts must match number of image path lists", 0) := by
  unfold OpenAIImageService.bulk_edit_images
  rw [if_pos h]

theorem c4_witness :
    OpenAIImageService.bulk_edit_images testEnv ["a", "b", "c"] [["x.png"], ["y.png"]] "m"
      none [] = (.error "Number of prompts must match number of image path lists", 0) :=
  c4_length_mismatch_rejected_before_dispatch testEnv ["a", "b", "c"]
    [["x.png"], ["y.png"]] "m" none [] (by decide)

/-- C5 counterexample: on the empty prompt list the bulk entry points do
NOT report a fatal precondition error — the batch completes: the service
returns the empty result list, the manifest reports success, and the edit
entry point returns `ok` with zero backend calls. -/
theorem c5_counterexample :
    OpenAIImageService.bulk_generate_images testEnv [] "gpt-image-1" none [] = []
    ∧ (ImageTools.bulk_generate_images testEnv [] "gpt-image-1" none []).success = true
    ∧ OpenAIImageService.bulk_edit_images testEnv [] [] "gpt-image-1" none [] =
        (.ok [], 0) := by
  refine ⟨rfl, rfl, ?_⟩
  unfold OpenAIImageService.bulk_edit_images
  rw [if_neg (by simp)]
  rfl

/-- C5 amended: for the empty prompt list the bulk entry points raise no
precondition error; they complete normally with zero tasks built, the
empty result list, a manifest whose allSucceeded flag is true, and (for
the edit entry point) an `ok` result with zero backend calls. -/
theorem c5_empty_batch_completes_normally (env : Env) (model sessionDir : String)
    (outputDir : Option String) :
    genTasks [] model sessionDir = []
    ∧ OpenAIImageService.bulk_generate_images env [] model outputDir [] = []
    ∧ (ImageTools.bulk_generate_images env [] model outputDir []).success = true
    ∧ OpenAIImageService.bulk_edit_images env [] [] model outputDir [] = (.ok [], 0) := by
  refine ⟨rfl, rfl, rfl, ?_⟩
  unfold OpenAIImageService.bulk_edit_images
  rw [if_neg (by simp)]
  rfl

/-- C6 counterexample: lexical sort order of the generated filenames does
not always equal index order — index 999 comes before index 1000, yet
`image_1000.png` sorts lexically strictly before `image_999.png`. -/
theorem c6_counterexample :
    (999 : Nat) < 1000
    ∧ lexLt (genFileName 999) (genFileName 1000) = false
    ∧ lexLt (genFileName 1000) (genFileName 999) = true := by
  refine ⟨by norm_num, by decide, by decide⟩

/-- C6 amended: each successful task's output path is exactly
`sessionDir/image_{i:03d}.png` for generation and
`sessionDir/edited_image_{i:03d}.png` for editing (index zero-padded to at
least 3 digits); distinct indices always yield distinct filenames; and
when all indices involved are below 1000 (batches of at most 1000 tasks),
lexical sort order of the filenames equals index order.  (For indices
≥ 1000 the lexical order diverges from index order, see the
counterexample.) -/
theorem c6_output_paths_deterministic_and_ordered (env : Env) (prompts : List String)
    (ipl : List (List String)) (model : String) (outputDir : Option String)
    (order : List Nat) (hord : order.Perm (List.range prompts.length))
    (hlen : prompts.length = ipl.length) :
    (∀ r ∈ OpenAIImageService.bulk_generate_images env prompts model outputDir order,
      r.success = true →
      r.output_path = some (genOutputPath (outputDir.getD env.sessionDirAlloc) r.index))
    ∧ (∀ rs, (OpenAIImageService.bulk_edit_images env prompts ipl model outputDir order).1 =
        .ok rs → ∀ r ∈ rs, r.success = true →
        r.output_path = some (editOutputPath (outputDir.getD env.sessionDirAlloc) r.index))
    ∧ (∀ i j : Nat, i ≠ j → genFileName i ≠ genFileName j)
    ∧ (∀ i j : Nat, i ≠ j → editFileName i ≠ editFileName j)
    ∧ (∀ i j : Nat, i < 1000 → j < 1000 → i < j →
        lexLt (genFileName i) (genFileName j) = true)
    ∧ (∀ i j : Nat, i < 1000 → j < 1000 → i < j →
        lexLt (editFileName i) (editFileName j) = true) := by
  refine ⟨?_, ?_, ?_, ?_, fun i j hi hj hij => genFileName_lt hi hj hij,
    fun i j hi hj hij => editFileName_lt hi hj hij⟩
  · intro r hr hsucc
    rw [bulk_gen_canonical env prompts model outputDir order hord] at hr
    obtain ⟨i, hiN, hival⟩ := List.mem_map.mp hr
    rcases worker_gen_cases env (prompts.getD i "") model i
        (genOutputPath (outputDir.getD env.sessionDirAlloc) i) with hcase | ⟨e, _, hcase⟩
    · rw [hcase] at hival
      rw [← hival]
    · rw [hcase] at hival
      rw [← hival] at hsucc
      simp at hsucc
  · intro rs hrs r hr hsucc
    rw [bulk_edit_canonical env prompts ipl model outputDir order hord hlen] at hrs
    simp only [Except.ok.injEq] at hrs
    subst hrs
    obtain ⟨i, hiN, hival⟩ := List.mem_map.mp hr
    rcases worker_edit_cases env (prompts.getD i "") (ipl.getD i []) i
        (editOutputPath (outputDir.getD env.sessionDirAlloc) i) with hcase | ⟨e, _, hcase⟩
    · rw [hcase] at hival
      rw [← hival]
    · rw [hcase] at hival
      rw [← hival] at hsucc
      simp at hsucc
  · intro i j hij h
    exact hij (genFileName_inj h)
  · intro i j hij h
    exact hij (editFileName_inj h)

theorem c6_witness :
    lexLt (genFileName 3) (genFileName 42) = true :=
  (c6_output_paths_deterministic_and_ordered testEnv ["a"] [["x.png"]] "m" none [0]
    (by decide) rfl).2.2.2.2.1 3 42 (by norm_num) (by norm_num) (by norm_num)

/-- C7: the pool size used for a bulk batch is `min(requested, 10)` (from
`__init__`), and in every state the scheduler can reach from an initial
batch, the number of tasks simultaneously in the dispatched-but-not-yet-
completed state never exceeds that pool size, hence never exceeds 10;
remaining tasks stay queued in `pending` until a slot frees up. -/
theorem c7_concurrency_capped_at_ten (requested : Nat) (tasks : List Nat) (s : PoolState)
    (h : poolReachable (max_workers requested) ⟨tasks, [], []⟩ s) :
    max_workers requested = min requested 10
      ∧ s.inflight.length ≤ max_workers requested
      ∧ s.inflight.length ≤ 10 := by
  have key := pool_invariant _ _ _ h
  refine ⟨rfl, key, ?_⟩
  have : max_workers requested ≤ 10 := Nat.min_le_right _ _
  omega

theorem c7_witness :
    max_workers 50 = min 50 10
      ∧ (PoolState.mk [1] [0] []).inflight.length ≤ max_workers 50
      ∧ (PoolState.mk [1] [0] []).inflight.length ≤ 10 :=
  c7_concurrency_capped_at_ten 50 [0, 1] (PoolState.mk [1] [0] [])
    (Relation.ReflTransGen.single (PoolStep.dispatch 0 [1] [] [] (by decide)))

/-- C8: when no output directory is supplied, the manifest's `session_dir`
is derived by string-splitting the first result's output path provided
that first result succeeded; if the first task of the batch failed, the
reported session directory is `None` (empty — not the allocator-created
directory), regardless of whether later tasks succeeded. -/
theorem c8_session_dir_from_first_result (env : Env) (prompts : List String)
    (model : String) (order : List Nat) :
    (∀ r rest,
      OpenAIImageService.bulk_generate_images env prompts model none order = r :: rest →
      r.success = false →
      (ImageTools.bulk_generate_images env prompts model none order).session_dir = none)
    ∧ (∀ r rest,
      OpenAIImageService.bulk_generate_images env prompts model none order = r :: rest →
      r.success = true →
      (ImageTools.bulk_generate_images env prompts model none order).session_dir =
        some (rsplitHead (optStr r.output_path))) := by
  constructor
  · intro r rest hres hfail
    simp [ImageTools.bulk_generate_images, buildManifest, sessionDirField, hres, hfail]
  · intro r rest hres hsucc
    simp [ImageTools.bulk_generate_images, buildManifest, sessionDirField, hres, hsucc]

theorem c8_witness :
    (ImageTools.bulk_generate_images failFirstEnv ["a", "b"] "m" none [0, 1]).session_dir =
        none
    ∧ (OpenAIImageService.bulk_generate_images failFirstEnv ["a", "b"] "m" none
        [0, 1]).map (fun r => r.success) = [false, true] :=
  ⟨(c8_session_dir_from_first_result failFirstEnv ["a", "b"] "m" [0, 1]).1
      ⟨0, false, none, some "rate limited"⟩
      [⟨1, true, some "generated_images/session_20260101_000000/image_001.png", none⟩]
      (by decide) rfl,
    by decide⟩

/-- C9: the model identifier passed to `bulk_edit_images` is NOT forwarded
to the backend: the per-task worker calls `edit_image` without a `model`
argument, so every backend edit request carries the default
`"gpt-image-1"`, and the whole bulk edit result is independent of the
caller's model argument. -/
theorem c9_edit_model_not_forwarded :
    (∀ (env : Env) (prompts : List String) (ipl : List (List String)) (m1 m2 : String)
      (outputDir : Option String) (order : List Nat),
      OpenAIImageService.bulk_edit_images env prompts ipl m1 outputDir order =
        OpenAIImageService.bulk_edit_images env prompts ipl m2 outputDir order)
    ∧ (∀ (env : Env) (i : Nat) (prompt : String) (paths : List String) (out : String),
      (_worker_edit_trace env i prompt paths out).modelUsed = some "gpt-image-1" ∨
        (_worker_edit_trace env i prompt paths out).modelUsed = none)
    ∧ (_worker_edit_trace testEnv 0 "p" ["img.png"] "out.png").modelUsed =
        some "gpt-image-1"
    ∧ "custom-model" ≠ "gpt-image-1" := by
  refine ⟨fun _ _ _ _ _ _ _ => rfl, ?_, rfl, by decide⟩
  intro env i prompt paths out
  unfold _worker_edit_trace edit_image
  rcases h : openAll env paths with ⟨opened, bad⟩
  cases bad with
  | none =>
    cases env.editResult i prompt "gpt-image-1" with
    | error e => left; rfl
    | ok bytes =>
      cases env.writeResult i out with
      | error e => left; rfl
      | ok u => left; rfl
  | some b => right; rfl

/-- C10: evaluating `edit_image` on a path list whose second entry cannot
be opened: the call fails with a descriptive error and makes zero backend
calls (confirming the fail-fast half of the claim), but the handle opened
for the first path is never closed — the list comprehension raised before
`images` was bound, so the `finally` block released nothing, refuting the
guaranteed-release half of the claim. -/
theorem c10_partial_open_leaks_handles :
    (OpenAIImageService.edit_image testEnv 0 "p" ["good.png", "missing.png"]
        "gpt-image-1" "out.png").backendCalls = 0
    ∧ (OpenAIImageService.edit_image testEnv 0 "p" ["good.png", "missing.png"]
        "gpt-image-1" "out.png").result =
          .error "No such file or directory: missing.png"
    ∧ (OpenAIImageService.edit_image testEnv 0 "p" ["good.png", "missing.png"]
        "gpt-image-1" "out.png").openHandlesLeaked = ["good.png"]
    ∧ ["good.png"] ≠ ([] : List String) := by
  refine ⟨rfl, rfl, rfl, by decide⟩

end MemeGen
